import Mathlib

/-!
Shallow embedding of the `server-env-config` Rust crate
(src/lib.rs, src/env.rs, src/db.rs, src/server.rs, src/conf.rs).

The process environment is modelled as a lookup function
`Env := String → Option String` (a `none` result corresponds to
`std::env::var` returning `Err`).  Fallible constructors return
`Except ConfigError α`; the error kinds follow the messages built in the
source (`anyhow` contexts):
  * `DATABASE_URL must be set`               → `missingRequiredValue`
  * `{name} invalid number/boolean "{v}"`    → `parseError name v`
  * `APP_ENV invalid value "{v}"`            → `validationError name v`
Rust machine integers are modelled as `Nat` with the range check that
`uN::from_str` performs made explicit; `Duration` values are kept as the
number of milliseconds / seconds they were constructed from, which is
exactly what `as_millis` / `as_secs` read back.
-/

/-- Process environment: lookup from variable name to optional value. -/
abbrev Env : Type := String → Option String

/-- Error kinds of the configuration resolution (src uses `anyhow` messages
carrying the variable name and the offending text). -/
inductive ConfigError where
  | missingRequiredValue (name : String)
  | parseError (name : String) (text : String)
  | validationError (name : String) (text : String)
deriving DecidableEq, Repr

/-- Rust `str::ends_with` on strings, via character lists. -/
def rustEndsWith (s suffix : String) : Bool :=
  suffix.data.isSuffixOf s.data

/-- Rust `str::contains(char)`, via character lists. -/
def rustContainsChar (s : String) (c : Char) : Bool :=
  s.data.contains c

/-- Rust `str::to_lowercase`, character by character (the values of
interest are ASCII). -/
def rustToLower (s : String) : String :=
  ⟨s.data.map Char.toLower⟩

/-- Rust `bool::from_str`: exactly the literals `true` and `false`. -/
def parseBool (s : String) : Option Bool :=
  if s = "true" then some true
  else if s = "false" then some false
  else none

/-- Value of a list of decimal digit characters. -/
def digitsVal (cs : List Char) : Nat :=
  cs.foldl (fun acc c => acc * 10 + (c.toNat - 48)) 0

/-- Digits part of Rust `uN::from_str`: non-empty, all ASCII decimal digits,
and the value must fit in `bits` bits. -/
def parseUnsignedDigits (bits : Nat) (cs : List Char) : Option Nat :=
  if cs ≠ [] ∧ cs.all Char.isDigit then
    if digitsVal cs < 2 ^ bits then some (digitsVal cs) else none
  else none

/-- Rust `uN::from_str`: optional leading `+`, then decimal digits,
rejecting overflow. -/
def parseUnsigned (bits : Nat) (s : String) : Option Nat :=
  match s.data with
  | '+' :: rest => parseUnsignedDigits bits rest
  | cs => parseUnsignedDigits bits cs

/-- Rust `u16::from_str`. -/
def parseU16 (s : String) : Option Nat := parseUnsigned 16 s

/-- Rust `u32::from_str`. -/
def parseU32 (s : String) : Option Nat := parseUnsigned 32 s

/-- Rust `u64::from_str`. -/
def parseU64 (s : String) : Option Nat := parseUnsigned 64 s

/-- Reader `env_bool` of src/lib.rs: read a boolean environment variable, mapping
the literal "0" to "false" and "1" to "true", lower-casing anything else
before the strict `bool` parse; an absent variable yields the default.
The error message carries the mapped (lower-cased) text, as in the source. -/
def env_bool (envv : Env) (env_name : String) (default_value : Bool) :
    Except ConfigError Bool :=
  match envv env_name with
  | none => Except.ok default_value
  | some v =>
    let v1 := if v = "0" then "false"
              else if v = "1" then "true"
              else rustToLower v
    match parseBool v1 with
    | some b => Except.ok b
    | none => Except.error (ConfigError.parseError env_name v1)

/-- Reader `env_parsable` of src/lib.rs, generic over the `FromStr`
implementation `parse`: an absent variable yields the default, a present
one is parsed, and a failed parse is an error naming the variable and the
offending text. -/
def env_parsable {A : Type} (parse : String → Option A) (envv : Env)
    (env_name : String) (default_value : A) : Except ConfigError A :=
  match envv env_name with
  | none => Except.ok default_value
  | some v =>
    match parse v with
    | some a => Except.ok a
    | none => Except.error (ConfigError.parseError env_name v)

/-- The `Environment` enum of src/env.rs. -/
inductive Environment where
  | local_
  | test
  | stage
  | production
deriving DecidableEq, Repr

/-- strum `Display` with `serialize_all = "snake_case"`. -/
def Environment.toStr : Environment → String
  | Environment.local_ => "local"
  | Environment.test => "test"
  | Environment.stage => "stage"
  | Environment.production => "production"

/-- strum `EnumString` with `serialize_all = "snake_case"` and no
`ascii_case_insensitive` attribute: `from_str` matches the snake_case
serialization of each variant exactly (case-sensitively). -/
def Environment.from_str (s : String) : Option Environment :=
  if s = "local" then some Environment.local_
  else if s = "test" then some Environment.test
  else if s = "stage" then some Environment.stage
  else if s = "production" then some Environment.production
  else none

/-- Resolver `Environment::init` of src/env.rs: read `APP_ENV`; absent means the
default variant (`Local`); otherwise `from_str`, failing with the
`APP_ENV invalid value "{v}"` context. -/
def Environment.init (envv : Env) : Except ConfigError Environment :=
  match envv "APP_ENV" with
  | none => Except.ok Environment.local_
  | some v =>
    match Environment.from_str v with
    | some e => Except.ok e
    | none => Except.error (ConfigError.validationError "APP_ENV" v)

/-- The `DbConfig` struct of src/db.rs (durations kept as the `u64`
milliseconds / seconds they were constructed from). -/
structure DbConfig where
  database_url : String
  min_connections : Nat
  max_connections : Nat
  acquire_timeout_ms : Nat
  idle_timeout_sec : Nat
  test_before_acquire : Bool
deriving DecidableEq, Repr

/-- The test-environment rewrite applied to `DATABASE_URL` inside
`DbConfig::init_for` (src/db.rs line 72): append `_test` when the
environment is `Test` and the url neither already ends with `_test` nor
contains a `?`. -/
def test_database_url (e : Environment) (url : String) : String :=
  if e = Environment.test ∧ rustEndsWith url "_test" = false ∧
      rustContainsChar url '?' = false then
    url ++ "_test"
  else
    url

/-- Constructor `DbConfig::init_for` of src/db.rs. -/
def DbConfig.init_for (envv : Env) (e : Environment) :
    Except ConfigError DbConfig := do
  let url ← match envv "DATABASE_URL" with
    | some u => Except.ok u
    | none => Except.error (ConfigError.missingRequiredValue "DATABASE_URL")
  let database_url := test_database_url e url
  let min_connections ← env_parsable parseU32 envv "MIN_CONNECTIONS" 1
  let max_connections ← env_parsable parseU32 envv "MAX_CONNECTIONS" 10
  let acquire_timeout_ms ← env_parsable parseU64 envv "ACQUIRE_TIMEOUT_MS" 750
  let idle_timeout_sec ← env_parsable parseU64 envv "IDLE_TIMEOUT_SEC" 300
  let test_before_acquire ← env_bool envv "TEST_BEFORE_ACQUIRE" false
  Except.ok ⟨database_url, min_connections, max_connections,
    acquire_timeout_ms, idle_timeout_sec, test_before_acquire⟩

/-- Rendering `ToString for DbConfig` of src/db.rs: every field in `.env` format under
the variable name it was read from, the connection string quoted. -/
def DbConfig.to_string (c : DbConfig) : String :=
  "DATABASE_URL=\"" ++ c.database_url ++ "\"" ++ "\n" ++
  "MIN_CONNECTIONS=" ++ toString c.min_connections ++ "\n" ++
  "MAX_CONNECTIONS=" ++ toString c.max_connections ++ "\n" ++
  "ACQUIRE_TIMEOUT_MS=" ++ toString c.acquire_timeout_ms ++ "\n" ++
  "IDLE_TIMEOUT_SEC=" ++ toString c.idle_timeout_sec ++ "\n" ++
  "TEST_BEFORE_ACQUIRE=" ++ (if c.test_before_acquire then "true" else "false")

/-- The `HttpServerConfig` struct of src/server.rs. -/
structure HttpServerConfig where
  addr : String
  port : Nat
  uri : String
  url : String
deriving DecidableEq, Repr

/-- Constructor `HttpServerConfig::init_for` of src/server.rs: `HOST` (default the
caller-supplied host), `PORT` (parsed `u16`, default the caller-supplied
port), `APP_URI` (default empty), and the derived `url`. -/
def HttpServerConfig.init_for (envv : Env) (default_host : String)
    (default_port : Nat) : Except ConfigError HttpServerConfig := do
  let addr := (envv "HOST").getD default_host
  let port ← env_parsable parseU16 envv "PORT" default_port
  let uri := (envv "APP_URI").getD ""
  let url :=
    "http://" ++
    (if addr = "0" then "localhost" else addr) ++
    (if port = 80 then "" else ":" ++ toString port) ++
    (if uri = "" then "" else "/" ++ uri) ++
    "/"
  Except.ok ⟨addr, port, uri, url⟩

/-- The `Config` struct of src/conf.rs. -/
structure Config where
  env : Environment
  server : HttpServerConfig
  db : DbConfig
deriving DecidableEq, Repr

/-- Constructor `Config::init_for` of src/conf.rs: resolve the environment (unless one
is passed), then the database config, then the HTTP config with default
host `127.0.0.1`. -/
def Config.init_for (envv : Env) (default_port : Nat)
    (environment : Option Environment) : Except ConfigError Config := do
  let e ← match environment with
    | some x => Except.ok x
    | none => Environment.init envv
  let db ← DbConfig.init_for envv e
  let server ← HttpServerConfig.init_for envv "127.0.0.1" default_port
  Except.ok ⟨e, server, db⟩

/-- Constructor `Config::init` of src/conf.rs. -/
def Config.init (envv : Env) (default_port : Nat) : Except ConfigError Config :=
  Config.init_for envv default_port none

/-- Rendering `ToString for Config` of src/conf.rs.  The render-time read of the
`RUST_LOG` environment variable (`env::var("RUST_LOG").unwrap_or("")`) is
made explicit as the `rust_log` argument. -/
def Config.to_string (c : Config) (rust_log : Option String) : String :=
  "# The following items are the environment variables and its values from" ++ "\n" ++
  "# the OS, from an .env file, or the default value used by **Backset**." ++ "\n" ++
  "#" ++ "\n" ++
  "# APP_URL --> " ++ c.server.url ++ "\n" ++
  "#" ++ "\n" ++
  "APP_ENV=" ++ c.env.toStr ++ "\n" ++
  "APP_URI=\"" ++ c.server.uri ++ "\"" ++ "\n" ++
  "HOST=" ++ c.server.addr ++ "\n" ++
  "PORT=" ++ toString c.server.port ++ "\n" ++
  "DATABASE_URL=\"" ++ c.db.database_url ++ "\"" ++ "\n" ++
  "MIN_CONNECTIONS=" ++ toString c.db.min_connections ++ "\n" ++
  "MAX_CONNECTIONS=" ++ toString c.db.max_connections ++ "\n" ++
  "ACQUIRE_TIMEOUT_MS=" ++ toString c.db.acquire_timeout_ms ++ "\n" ++
  "IDLE_TIMEOUT_SEC=" ++ toString c.db.idle_timeout_sec ++ "\n" ++
  "TEST_BEFORE_ACQUIRE=" ++ (if c.db.test_before_acquire then "true" else "false") ++ "\n" ++
  "RUST_LOG=\"" ++ rust_log.getD "" ++ "\""

/-! ## Derived rendering structure and concrete inputs used by the theorems -/

/-- Split a character list at newline characters. -/
def splitLines : List Char → List (List Char)
  | [] => [[]]
  | c :: rest =>
    match splitLines rest with
    | [] => [[]]
    | l :: ls => if c = '\n' then [] :: l :: ls else (c :: l) :: ls

/-- The lines of a rendered string. -/
def linesOf (s : String) : List String :=
  (splitLines s.data).map String.mk

/-- The comment header that `Config::to_string` emits before the variable
assignments. -/
def renderHeader (c : Config) : String :=
  "# The following items are the environment variables and its values from" ++ "\n" ++
  "# the OS, from an .env file, or the default value used by **Backset**." ++ "\n" ++
  "#" ++ "\n" ++
  "# APP_URL --> " ++ c.server.url ++ "\n" ++
  "#" ++ "\n"

/-- Join a list of lines with newline separators. -/
def joinLines : List String → String
  | [] => ""
  | [l] => l
  | l :: ls => l ++ "\n" ++ joinLines ls

/-- One `NAME=value` assignment per recognized variable, under the variable
name the value was read from, with `APP_URI`, `DATABASE_URL` and the
render-time `RUST_LOG` quoted and `HOST` unquoted. -/
def assignmentLines (c : Config) (rust_log : Option String) : List String :=
  [ "APP_ENV=" ++ c.env.toStr,
    "APP_URI=\"" ++ c.server.uri ++ "\"",
    "HOST=" ++ c.server.addr,
    "PORT=" ++ toString c.server.port,
    "DATABASE_URL=\"" ++ c.db.database_url ++ "\"",
    "MIN_CONNECTIONS=" ++ toString c.db.min_connections,
    "MAX_CONNECTIONS=" ++ toString c.db.max_connections,
    "ACQUIRE_TIMEOUT_MS=" ++ toString c.db.acquire_timeout_ms,
    "IDLE_TIMEOUT_SEC=" ++ toString c.db.idle_timeout_sec,
    "TEST_BEFORE_ACQUIRE=" ++ (if c.db.test_before_acquire then "true" else "false"),
    "RUST_LOG=\"" ++ rust_log.getD "" ++ "\"" ]

/-- Everything `Config::to_string` emits before the `RUST_LOG` line. -/
def renderBase (c : Config) : String :=
  renderHeader c ++
  "APP_ENV=" ++ c.env.toStr ++ "\n" ++
  "APP_URI=\"" ++ c.server.uri ++ "\"" ++ "\n" ++
  "HOST=" ++ c.server.addr ++ "\n" ++
  "PORT=" ++ toString c.server.port ++ "\n" ++
  "DATABASE_URL=\"" ++ c.db.database_url ++ "\"" ++ "\n" ++
  "MIN_CONNECTIONS=" ++ toString c.db.min_connections ++ "\n" ++
  "MAX_CONNECTIONS=" ++ toString c.db.max_connections ++ "\n" ++
  "ACQUIRE_TIMEOUT_MS=" ++ toString c.db.acquire_timeout_ms ++ "\n" ++
  "IDLE_TIMEOUT_SEC=" ++ toString c.db.idle_timeout_sec ++ "\n" ++
  "TEST_BEFORE_ACQUIRE=" ++ (if c.db.test_before_acquire then "true" else "false") ++ "\n"

/-- Modelled from the spec (section 4.5 "Exposes a textual rendering
analogous to 4.4"): the HTTP-side rendering the spec describes; no such
rendering exists in src/server.rs.  It lists every settable field under the
variable name it is read from, string-typed values quoted. -/
def HttpServerConfig.render_spec (s : HttpServerConfig) : String :=
  "HOST=\"" ++ s.addr ++ "\"" ++ "\n" ++
  "PORT=" ++ toString s.port ++ "\n" ++
  "APP_URI=\"" ++ s.uri ++ "\""

/-- Modelled from the spec (section 4.6): the top-level rendering the spec
describes, the concatenation of the HTTP rendering, the database rendering
and the resolved deployment-environment line. -/
def Config.render_spec (c : Config) : String :=
  c.server.render_spec ++ "\n" ++ c.db.to_string ++ "\n" ++
  "APP_ENV=" ++ c.env.toStr

/-- Environment with only `DATABASE_URL` set (C2 witness). -/
def envC2 : Env := fun n =>
  if n = "DATABASE_URL" then some "postgresql://u:p@h/db" else none

/-- Environment with `HOST`, `PORT` and `APP_URI` set (C3 witness). -/
def envC3 : Env := fun n =>
  if n = "HOST" then some "0"
  else if n = "PORT" then some "8080"
  else if n = "APP_URI" then some "api/v1"
  else none

/-- Environment with only `DATABASE_URL` set (C4 witness). -/
def envC4 : Env := fun n =>
  if n = "DATABASE_URL" then some "postgres://h/db" else none

/-- Environment with only `DATABASE_URL` set (C7 counterexample). -/
def envC7 : Env := fun n =>
  if n = "DATABASE_URL" then some "postgresql://u:p@h/db" else none

/-- The configuration `Config::init` resolves from `envC7` with default
port 8080. -/
def cC7 : Config :=
  ⟨Environment.local_, ⟨"127.0.0.1", 8080, "", "http://127.0.0.1:8080/"⟩,
    ⟨"postgresql://u:p@h/db", 1, 10, 750, 300, false⟩⟩

/-- A resolved configuration (C8 counterexample). -/
def cC8 : Config :=
  ⟨Environment.local_, ⟨"127.0.0.1", 8080, "", "http://127.0.0.1:8080/"⟩,
    ⟨"postgres://h/db", 1, 10, 750, 300, false⟩⟩

/-- A resolved configuration (C9 counterexample and witness). -/
def cC9 : Config :=
  ⟨Environment.production, ⟨"127.0.0.1", 80, "", "http://127.0.0.1/"⟩,
    ⟨"postgres://h/db", 1, 10, 750, 300, false⟩⟩

/-- Environment with `MIN_CONNECTIONS` greater than `MAX_CONNECTIONS`
(C10 witness). -/
def env10 : Env := fun n =>
  if n = "DATABASE_URL" then some "postgres://h/db"
  else if n = "MIN_CONNECTIONS" then some "10"
  else if n = "MAX_CONNECTIONS" then some "2"
  else none

/-- Environment where the pool bounds parse but `ACQUIRE_TIMEOUT_MS` is
malformed (C10 counterexample). -/
def env10bad : Env := fun n =>
  if n = "DATABASE_URL" then some "postgres://h/db"
  else if n = "MIN_CONNECTIONS" then some "5"
  else if n = "MAX_CONNECTIONS" then some "2"
  else if n = "ACQUIRE_TIMEOUT_MS" then some "oops"
  else none

/-! ## Helper lemmas about the readers and constructors -/

theorem env_parsable_none {A : Type} (parse : String → Option A) (envv : Env)
    (name : String) (d : A) (h : envv name = none) :
    env_parsable parse envv name d = Except.ok d := by
  simp only [env_parsable, h]

theorem env_parsable_some_ok {A : Type} (parse : String → Option A) (envv : Env)
    (name : String) (d : A) (v : String) (a : A) (hv : envv name = some v)
    (hp : parse v = some a) :
    env_parsable parse envv name d = Except.ok a := by
  simp only [env_parsable, hv, hp]

theorem env_parsable_some_err {A : Type} (parse : String → Option A) (envv : Env)
    (name : String) (d : A) (v : String) (hv : envv name = some v)
    (hp : parse v = none) :
    env_parsable parse envv name d = Except.error (ConfigError.parseError name v) := by
  simp only [env_parsable, hv, hp]

theorem env_parsable_error_shape {A : Type} (parse : String → Option A)
    (envv : Env) (name : String) (d : A) (err : ConfigError)
    (h : env_parsable parse envv name d = Except.error err) :
    ∃ v, err = ConfigError.parseError name v := by
  unfold env_parsable at h
  cases hv : envv name with
  | none => rw [hv] at h; simp at h
  | some v =>
    rw [hv] at h
    dsimp only at h
    cases hp : parse v with
    | some a => rw [hp] at h; simp at h
    | none =>
      rw [hp] at h
      simp only [Except.error.injEq] at h
      exact ⟨v, h.symm⟩

theorem env_bool_error_shape (envv : Env) (name : String) (d : Bool)
    (err : ConfigError) (h : env_bool envv name d = Except.error err) :
    ∃ v, err = ConfigError.parseError name v := by
  unfold env_bool at h
  cases hv : envv name with
  | none => rw [hv] at h; simp at h
  | some v =>
    rw [hv] at h
    dsimp only at h
    cases hp : parseBool (if v = "0" then "false" else if v = "1" then "true" else rustToLower v) with
    | some b => rw [hp] at h; simp at h
    | none =>
      rw [hp] at h
      simp only [Except.error.injEq] at h
      exact ⟨_, h.symm⟩

theorem db_init_absent (envv : Env) (e : Environment)
    (h : envv "DATABASE_URL" = none) :
    DbConfig.init_for envv e =
      Except.error (ConfigError.missingRequiredValue "DATABASE_URL") := by
  unfold DbConfig.init_for
  rw [h]
  rfl

theorem db_init_present_eq (envv : Env) (e : Environment) (u : String)
    (hu : envv "DATABASE_URL" = some u) :
    DbConfig.init_for envv e =
      Except.bind (env_parsable parseU32 envv "MIN_CONNECTIONS" 1) (fun m =>
      Except.bind (env_parsable parseU32 envv "MAX_CONNECTIONS" 10) (fun M =>
      Except.bind (env_parsable parseU64 envv "ACQUIRE_TIMEOUT_MS" 750) (fun a =>
      Except.bind (env_parsable parseU64 envv "IDLE_TIMEOUT_SEC" 300) (fun i =>
      Except.bind (env_bool envv "TEST_BEFORE_ACQUIRE" false) (fun t =>
      Except.ok ⟨test_database_url e u, m, M, a, i, t⟩))))) := by
  unfold DbConfig.init_for
  rw [hu]
  rfl

theorem db_init_ok_readers (envv : Env) (e : Environment) (c : DbConfig)
    (h : DbConfig.init_for envv e = Except.ok c) :
    (∃ u, envv "DATABASE_URL" = some u ∧ c.database_url = test_database_url e u) ∧
    env_parsable parseU32 envv "MIN_CONNECTIONS" 1 = Except.ok c.min_connections ∧
    env_parsable parseU32 envv "MAX_CONNECTIONS" 10 = Except.ok c.max_connections ∧
    env_parsable parseU64 envv "ACQUIRE_TIMEOUT_MS" 750 = Except.ok c.acquire_timeout_ms ∧
    env_parsable parseU64 envv "IDLE_TIMEOUT_SEC" 300 = Except.ok c.idle_timeout_sec ∧
    env_bool envv "TEST_BEFORE_ACQUIRE" false = Except.ok c.test_before_acquire := by
  cases hu : envv "DATABASE_URL" with
  | none => rw [db_init_absent envv e hu] at h; simp at h
  | some u =>
    rw [db_init_present_eq envv e u hu] at h
    cases h1 : env_parsable parseU32 envv "MIN_CONNECTIONS" 1 with
    | error e1 => rw [h1] at h; simp [Except.bind] at h
    | ok m =>
      rw [h1] at h
      cases h2 : env_parsable parseU32 envv "MAX_CONNECTIONS" 10 with
      | error e2 => rw [h2] at h; simp [Except.bind] at h
      | ok M =>
        rw [h2] at h
        cases h3 : env_parsable parseU64 envv "ACQUIRE_TIMEOUT_MS" 750 with
        | error e3 => rw [h3] at h; simp [Except.bind] at h
        | ok a =>
          rw [h3] at h
          cases h4 : env_parsable parseU64 envv "IDLE_TIMEOUT_SEC" 300 with
          | error e4 => rw [h4] at h; simp [Except.bind] at h
          | ok i =>
            rw [h4] at h
            cases h5 : env_bool envv "TEST_BEFORE_ACQUIRE" false with
            | error e5 => rw [h5] at h; simp [Except.bind] at h
            | ok t =>
              rw [h5] at h
              simp only [Except.bind, Except.ok.injEq] at h
              have hc : c = ⟨test_database_url e u, m, M, a, i, t⟩ := h.symm
              subst hc
              exact ⟨⟨u, rfl, rfl⟩, rfl, rfl, rfl, rfl, rfl⟩

theorem http_init_eq (envv : Env) (dh : String) (dp : Nat) :
    HttpServerConfig.init_for envv dh dp =
      Except.bind (env_parsable parseU16 envv "PORT" dp) (fun port =>
      Except.ok
        ⟨(envv "HOST").getD dh, port, (envv "APP_URI").getD "",
          "http://" ++
          (if (envv "HOST").getD dh = "0" then "localhost" else (envv "HOST").getD dh) ++
          (if port = 80 then "" else ":" ++ toString port) ++
          (if (envv "APP_URI").getD "" = "" then "" else "/" ++ (envv "APP_URI").getD "") ++
          "/"⟩) := by
  unfold HttpServerConfig.init_for
  rfl

theorem http_init_ok (envv : Env) (dh : String) (dp : Nat)
    (sc : HttpServerConfig)
    (h : HttpServerConfig.init_for envv dh dp = Except.ok sc) :
    sc.addr = (envv "HOST").getD dh ∧
    env_parsable parseU16 envv "PORT" dp = Except.ok sc.port ∧
    sc.uri = (envv "APP_URI").getD "" ∧
    sc.url =
      "http://" ++
      (if sc.addr = "0" then "localhost" else sc.addr) ++
      (if sc.port = 80 then "" else ":" ++ toString sc.port) ++
      (if sc.uri = "" then "" else "/" ++ sc.uri) ++
      "/" := by
  rw [http_init_eq envv dh dp] at h
  cases hp : env_parsable parseU16 envv "PORT" dp with
  | error e1 => rw [hp] at h; simp [Except.bind] at h
  | ok p =>
    rw [hp] at h
    simp only [Except.bind, Except.ok.injEq] at h
    have hc : sc = _ := h.symm
    subst hc
    exact ⟨rfl, rfl, rfl, rfl⟩

theorem rustEndsWith_append (u t : String) : rustEndsWith (u ++ t) t = true := by
  unfold rustEndsWith
  rw [String.data_append]
  exact List.isSuffixOf_iff_suffix.mpr (List.suffix_append u.data t.data)

/-- C1 (amended): `Environment::init` returns `Ok(Local)` when `APP_ENV` is
absent; a present value is matched case-sensitively against the snake_case
variant serializations, and a value matching no variant fails with a
validation error naming the invalid text. -/
theorem c1_app_env_resolution (envv : Env) (v : String) :
    (envv "APP_ENV" = none → Environment.init envv = Except.ok Environment.local_) ∧
    (envv "APP_ENV" = some v →
      (∀ e : Environment, v = e.toStr → Environment.init envv = Except.ok e) ∧
      ((∀ e : Environment, v ≠ e.toStr) →
        Environment.init envv = Except.error (ConfigError.validationError "APP_ENV" v))) := by
  refine ⟨fun h => ?_, fun h => ⟨fun e he => ?_, fun hne => ?_⟩⟩
  · unfold Environment.init
    rw [h]
  · unfold Environment.init
    rw [h]
    subst he
    cases e <;> rfl
  · unfold Environment.init
    rw [h]
    dsimp only
    have hl := hne Environment.local_
    have ht := hne Environment.test
    have hs := hne Environment.stage
    have hp := hne Environment.production
    simp only [Environment.toStr] at hl ht hs hp
    have h1 : Environment.from_str v = none := by
      simp [Environment.from_str, hl, ht, hs, hp]
    rw [h1]

/-- C1 counterexample: matching is case-sensitive, so the values
`"Production"` and `"PRODUCTION"` do not resolve to `Production` but fail
with a validation error. -/
theorem c1_counterexample :
    Environment.init (fun n => if n = "APP_ENV" then some "Production" else none) =
      Except.error (ConfigError.validationError "APP_ENV" "Production") ∧
    Environment.init (fun n => if n = "APP_ENV" then some "PRODUCTION" else none) =
      Except.error (ConfigError.validationError "APP_ENV" "PRODUCTION") :=
  ⟨rfl, rfl⟩

/-- C1 witness: the amended theorem applied at `APP_ENV=production`. -/
theorem c1_witness :
    Environment.init (fun n => if n = "APP_ENV" then some "production" else none) =
      Except.ok Environment.production :=
  ((c1_app_env_resolution
      (fun n => if n = "APP_ENV" then some "production" else none) "production").2
    rfl).1 Environment.production rfl

/-- C2: with `DATABASE_URL` present with value `u`, a successful
`DbConfig::init_for` stores `u` with `_test` appended exactly when the
environment is `Test` and `u` neither already ends with `_test` nor
contains a `?`; otherwise `u` is stored unchanged, and the rewrite is
idempotent. -/
theorem c2_test_db_url (envv : Env) (e : Environment) (u : String) (c : DbConfig)
    (hu : envv "DATABASE_URL" = some u)
    (hok : DbConfig.init_for envv e = Except.ok c) :
    c.database_url = test_database_url e u ∧
    (e = Environment.test →
      ((rustEndsWith u "_test" = true ∨ rustContainsChar u '?' = true) →
        c.database_url = u) ∧
      (rustEndsWith u "_test" = false → rustContainsChar u '?' = false →
        c.database_url = u ++ "_test")) ∧
    (e ≠ Environment.test → c.database_url = u) ∧
    test_database_url e (test_database_url e u) = test_database_url e u := by
  obtain ⟨⟨u1, hu1, hdb⟩, -, -, -, -, -⟩ := db_init_ok_readers envv e c hok
  rw [hu] at hu1
  injection hu1 with hu1
  subst hu1
  refine ⟨hdb, fun he => ⟨fun hor => ?_, fun h1 h2 => ?_⟩, fun hne => ?_, ?_⟩
  · subst he
    rcases hor with h | h <;> simp [hdb, test_database_url, h]
  · rw [hdb]
    simp [test_database_url, he, h1, h2]
  · rw [hdb]
    simp [test_database_url, hne]
  · by_cases hc : e = Environment.test ∧ rustEndsWith u "_test" = false ∧
        rustContainsChar u '?' = false
    · unfold test_database_url
      rw [if_pos hc]
      simp [rustEndsWith_append]
    · unfold test_database_url
      rw [if_neg hc, if_neg hc]

/-- C2 witness: the theorem applied to `DATABASE_URL=postgresql://u:p@h/db`
in the `Test` environment. -/
theorem c2_witness :
    DbConfig.init_for envC2 Environment.test =
      Except.ok ⟨"postgresql://u:p@h/db_test", 1, 10, 750, 300, false⟩ ∧
    (DbConfig.mk "postgresql://u:p@h/db_test" 1 10 750 300 false).database_url =
      "postgresql://u:p@h/db" ++ "_test" :=
  ⟨rfl,
   ((c2_test_db_url envC2 Environment.test "postgresql://u:p@h/db"
        (DbConfig.mk "postgresql://u:p@h/db_test" 1 10 750 300 false)
        rfl rfl).2.1 rfl).2 rfl rfl⟩

/-- C3: the derived `url` of a successfully resolved `HttpServerConfig` is
built from the scheme, the resolved address (with `localhost` substituted
for the literal `"0"`), the port segment (omitted when the port is 80), the
path segment (omitted when the URI is empty, otherwise slash-prefixed) and
a trailing slash. -/
theorem c3_url_derivation (envv : Env) (dh : String) (dp : Nat)
    (c : HttpServerConfig)
    (h : HttpServerConfig.init_for envv dh dp = Except.ok c) :
    c.url =
      "http://" ++
      (if c.addr = "0" then "localhost" else c.addr) ++
      (if c.port = 80 then "" else ":" ++ toString c.port) ++
      (if c.uri = "" then "" else "/" ++ c.uri) ++
      "/" :=
  (http_init_ok envv dh dp c h).2.2.2

/-- C3 witness: the theorem applied at address "0", port 8080, uri
"api/v1", which yields `http://localhost:8080/api/v1/`. -/
theorem c3_witness :
    HttpServerConfig.init_for envC3 "127.0.0.1" 999 =
      Except.ok ⟨"0", 8080, "api/v1", "http://localhost:8080/api/v1/"⟩ ∧
    (HttpServerConfig.mk "0" 8080 "api/v1" "http://localhost:8080/api/v1/").url =
      "http://localhost:8080/api/v1/" :=
  ⟨rfl,
   c3_url_derivation envC3 "127.0.0.1" 999
     (HttpServerConfig.mk "0" 8080 "api/v1" "http://localhost:8080/api/v1/") rfl⟩

/-- C5: `env_bool` maps the literal "0" to false and "1" to true, parses
any other present value lower-cased as a strict boolean literal, fails with
a parse error on anything else present, and yields the default when the
variable is absent. -/
theorem c5_env_bool_contract (envv : Env) (name : String) (d : Bool) :
    (envv name = none → env_bool envv name d = Except.ok d) ∧
    (∀ v, envv name = some v →
      (v = "0" → env_bool envv name d = Except.ok false) ∧
      (v = "1" → env_bool envv name d = Except.ok true) ∧
      (v ≠ "0" → v ≠ "1" → rustToLower v = "true" →
        env_bool envv name d = Except.ok true) ∧
      (v ≠ "0" → v ≠ "1" → rustToLower v = "false" →
        env_bool envv name d = Except.ok false) ∧
      (v ≠ "0" → v ≠ "1" → rustToLower v ≠ "true" → rustToLower v ≠ "false" →
        env_bool envv name d =
          Except.error (ConfigError.parseError name (rustToLower v)))) := by
  refine ⟨fun h => by simp only [env_bool, h],
    fun v hv => ⟨fun h0 => ?_, fun h1 => ?_, fun h0 h1 hl => ?_,
      fun h0 h1 hl => ?_, fun h0 h1 ht hf => ?_⟩⟩
  · subst h0
    simp only [env_bool, hv]
    rfl
  · subst h1
    simp only [env_bool, hv]
    rfl
  · unfold env_bool
    rw [hv]
    dsimp only
    rw [if_neg h0, if_neg h1, hl]
    rfl
  · unfold env_bool
    rw [hv]
    dsimp only
    rw [if_neg h0, if_neg h1, hl]
    rfl
  · unfold env_bool
    rw [hv]
    dsimp only
    rw [if_neg h0, if_neg h1]
    have hp : parseBool (rustToLower v) = none := by
      unfold parseBool
      rw [if_neg ht, if_neg hf]
    rw [hp]

/-- C5 witness: the theorem applied at the values "TRUE", "0",
"not a boolean", and to an absent variable. -/
theorem c5_witness :
    env_bool (fun n => if n = "BOOL_ENV" then some "TRUE" else none) "BOOL_ENV" false =
      Except.ok true ∧
    env_bool (fun n => if n = "BOOL_ENV" then some "0" else none) "BOOL_ENV" true =
      Except.ok false ∧
    env_bool (fun n => if n = "BOOL_ENV" then some "not a boolean" else none) "BOOL_ENV" false =
      Except.error (ConfigError.parseError "BOOL_ENV" "not a boolean") ∧
    env_bool (fun _ => none) "BOOL_ENV" true = Except.ok true :=
  ⟨((c5_env_bool_contract _ "BOOL_ENV" false).2 "TRUE" rfl).2.2.1
      (by decide) (by decide) rfl,
   ((c5_env_bool_contract _ "BOOL_ENV" true).2 "0" rfl).1 rfl,
   ((c5_env_bool_contract _ "BOOL_ENV" false).2 "not a boolean" rfl).2.2.2.2
      (by decide) (by decide) (by decide) (by decide),
   (c5_env_bool_contract _ "BOOL_ENV" true).1 rfl⟩

/-- C6: `env_parsable` yields the default exactly on an absent variable,
the parsed value on a present parsable one, and a parse error naming the
variable and the offending text on a present unparsable one, never the
default. -/
theorem c6_env_parsable_contract {A : Type} (parse : String → Option A)
    (envv : Env) (name : String) (d : A) :
    (envv name = none → env_parsable parse envv name d = Except.ok d) ∧
    (∀ v a, envv name = some v → parse v = some a →
      env_parsable parse envv name d = Except.ok a) ∧
    (∀ v, envv name = some v → parse v = none →
      env_parsable parse envv name d =
        Except.error (ConfigError.parseError name v)) :=
  ⟨env_parsable_none parse envv name d,
   fun v a hv hp => env_parsable_some_ok parse envv name d v a hv hp,
   fun v hv hp => env_parsable_some_err parse envv name d v hv hp⟩

/-- C6 witness: the theorem applied to a numeric variable set to "1234",
one set to "not a number", and an absent one. -/
theorem c6_witness :
    env_parsable parseU32 (fun n => if n = "NUM_ENV" then some "1234" else none)
      "NUM_ENV" 1 = Except.ok 1234 ∧
    env_parsable parseU64 (fun n => if n = "LONG_ENV" then some "not a number" else none)
      "LONG_ENV" 1 = Except.error (ConfigError.parseError "LONG_ENV" "not a number") ∧
    env_parsable parseU32 (fun _ => none) "ENV_NOT_SET" 7 = Except.ok 7 :=
  ⟨(c6_env_parsable_contract parseU32 _ "NUM_ENV" 1).2.1 "1234" 1234 rfl rfl,
   (c6_env_parsable_contract parseU64 _ "LONG_ENV" 1).2.2 "not a number" rfl rfl,
   (c6_env_parsable_contract parseU32 _ "ENV_NOT_SET" 7).1 rfl⟩

/-- C4: `DbConfig::init_for` fails with the missing-required-value error
naming `DATABASE_URL` exactly when `DATABASE_URL` is absent, and every
other recognized variable yields its default instead of an error when
absent. -/
theorem c4_required_values (envv : Env) (e : Environment) :
    (envv "DATABASE_URL" = none →
      DbConfig.init_for envv e =
        Except.error (ConfigError.missingRequiredValue "DATABASE_URL")) ∧
    (∀ u, envv "DATABASE_URL" = some u →
      DbConfig.init_for envv e ≠
        Except.error (ConfigError.missingRequiredValue "DATABASE_URL")) ∧
    (∀ c, DbConfig.init_for envv e = Except.ok c →
      (envv "MIN_CONNECTIONS" = none → c.min_connections = 1) ∧
      (envv "MAX_CONNECTIONS" = none → c.max_connections = 10) ∧
      (envv "ACQUIRE_TIMEOUT_MS" = none → c.acquire_timeout_ms = 750) ∧
      (envv "IDLE_TIMEOUT_SEC" = none → c.idle_timeout_sec = 300) ∧
      (envv "TEST_BEFORE_ACQUIRE" = none → c.test_before_acquire = false)) ∧
    (∀ dh dp sc, HttpServerConfig.init_for envv dh dp = Except.ok sc →
      (envv "HOST" = none → sc.addr = dh) ∧
      (envv "PORT" = none → sc.port = dp) ∧
      (envv "APP_URI" = none → sc.uri = "")) ∧
    (envv "APP_ENV" = none → Environment.init envv = Except.ok Environment.local_) := by
  refine ⟨db_init_absent envv e, fun u hu hcon => ?_, fun c hok => ?_,
    fun dh dp sc hok => ?_, fun h => ?_⟩
  · rw [db_init_present_eq envv e u hu] at hcon
    cases h1 : env_parsable parseU32 envv "MIN_CONNECTIONS" 1 with
    | error e1 =>
      rw [h1] at hcon
      simp only [Except.bind, Except.error.injEq] at hcon
      obtain ⟨v, rfl⟩ := env_parsable_error_shape _ envv _ _ e1 h1
      exact ConfigError.noConfusion hcon
    | ok m =>
      rw [h1] at hcon
      simp only [Except.bind] at hcon
      cases h2 : env_parsable parseU32 envv "MAX_CONNECTIONS" 10 with
      | error e2 =>
        rw [h2] at hcon
        simp only [Except.bind, Except.error.injEq] at hcon
        obtain ⟨v, rfl⟩ := env_parsable_error_shape _ envv _ _ e2 h2
        exact ConfigError.noConfusion hcon
      | ok M =>
        rw [h2] at hcon
        simp only [Except.bind] at hcon
        cases h3 : env_parsable parseU64 envv "ACQUIRE_TIMEOUT_MS" 750 with
        | error e3 =>
          rw [h3] at hcon
          simp only [Except.bind, Except.error.injEq] at hcon
          obtain ⟨v, rfl⟩ := env_parsable_error_shape _ envv _ _ e3 h3
          exact ConfigError.noConfusion hcon
        | ok a =>
          rw [h3] at hcon
          simp only [Except.bind] at hcon
          cases h4 : env_parsable parseU64 envv "IDLE_TIMEOUT_SEC" 300 with
          | error e4 =>
            rw [h4] at hcon
            simp only [Except.bind, Except.error.injEq] at hcon
            obtain ⟨v, rfl⟩ := env_parsable_error_shape _ envv _ _ e4 h4
            exact ConfigError.noConfusion hcon
          | ok i =>
            rw [h4] at hcon
            simp only [Except.bind] at hcon
            cases h5 : env_bool envv "TEST_BEFORE_ACQUIRE" false with
            | error e5 =>
              rw [h5] at hcon
              simp only [Except.bind, Except.error.injEq] at hcon
              obtain ⟨v, rfl⟩ := env_bool_error_shape envv _ _ e5 h5
              exact ConfigError.noConfusion hcon
            | ok t =>
              rw [h5] at hcon
              simp only [Except.bind] at hcon
              exact Except.noConfusion hcon
  · obtain ⟨-, h1, h2, h3, h4, h5⟩ := db_init_ok_readers envv e c hok
    refine ⟨fun h => ?_, fun h => ?_, fun h => ?_, fun h => ?_, fun h => ?_⟩
    · rw [env_parsable_none parseU32 envv _ 1 h] at h1
      injection h1 with h1
      exact h1.symm
    · rw [env_parsable_none parseU32 envv _ 10 h] at h2
      injection h2 with h2
      exact h2.symm
    · rw [env_parsable_none parseU64 envv _ 750 h] at h3
      injection h3 with h3
      exact h3.symm
    · rw [env_parsable_none parseU64 envv _ 300 h] at h4
      injection h4 with h4
      exact h4.symm
    · have hb : env_bool envv "TEST_BEFORE_ACQUIRE" false = Except.ok false := by
        simp only [env_bool, h]
      rw [hb] at h5
      injection h5 with h5
      exact h5.symm
  · obtain ⟨ha, hp, hu2, -⟩ := http_init_ok envv dh dp sc hok
    refine ⟨fun h => ?_, fun h => ?_, fun h => ?_⟩
    · rw [ha, h]
      rfl
    · rw [env_parsable_none parseU16 envv _ dp h] at hp
      injection hp with hp
      exact hp.symm
    · rw [hu2, h]
      rfl
  · unfold Environment.init
    rw [h]

/-- C4 witness: the theorem applied to an empty environment and to one
holding only `DATABASE_URL`. -/
theorem c4_witness :
    DbConfig.init_for (fun _ => none) Environment.local_ =
      Except.error (ConfigError.missingRequiredValue "DATABASE_URL") ∧
    (DbConfig.mk "postgres://h/db" 1 10 750 300 false).min_connections = 1 ∧
    (DbConfig.mk "postgres://h/db" 1 10 750 300 false).test_before_acquire = false ∧
    (HttpServerConfig.mk "127.0.0.1" 9090 "" "http://127.0.0.1:9090/").addr = "127.0.0.1" ∧
    Environment.init (fun _ => none) = Except.ok Environment.local_ :=
  ⟨(c4_required_values (fun _ => none) Environment.local_).1 rfl,
   ((c4_required_values envC4 Environment.local_).2.2.1
      (DbConfig.mk "postgres://h/db" 1 10 750 300 false) rfl).1 rfl,
   ((c4_required_values envC4 Environment.local_).2.2.1
      (DbConfig.mk "postgres://h/db" 1 10 750 300 false) rfl).2.2.2.2 rfl,
   ((c4_required_values envC4 Environment.local_).2.2.2.1 "127.0.0.1" 9090
      (HttpServerConfig.mk "127.0.0.1" 9090 "" "http://127.0.0.1:9090/") rfl).1 rfl,
   (c4_required_values (fun _ => none) Environment.local_).2.2.2.2 rfl⟩

/-- C10 (amended): when `DATABASE_URL` is present, both pool bounds parse
as `u32`, and the remaining readers resolve, construction succeeds and
stores the bounds exactly as given — no ordering relation between
`MIN_CONNECTIONS` and `MAX_CONNECTIONS` is enforced. -/
theorem c10_no_pool_bound_relation (envv : Env) (e : Environment)
    (u sm sM : String) (m M a i : Nat) (t : Bool)
    (hu : envv "DATABASE_URL" = some u)
    (hm1 : envv "MIN_CONNECTIONS" = some sm) (hm2 : parseU32 sm = some m)
    (hM1 : envv "MAX_CONNECTIONS" = some sM) (hM2 : parseU32 sM = some M)
    (ha : env_parsable parseU64 envv "ACQUIRE_TIMEOUT_MS" 750 = Except.ok a)
    (hi : env_parsable parseU64 envv "IDLE_TIMEOUT_SEC" 300 = Except.ok i)
    (ht : env_bool envv "TEST_BEFORE_ACQUIRE" false = Except.ok t) :
    DbConfig.init_for envv e =
      Except.ok ⟨test_database_url e u, m, M, a, i, t⟩ := by
  rw [db_init_present_eq envv e u hu,
    env_parsable_some_ok parseU32 envv "MIN_CONNECTIONS" 1 sm m hm1 hm2,
    env_parsable_some_ok parseU32 envv "MAX_CONNECTIONS" 10 sM M hM1 hM2,
    ha, hi, ht]
  rfl

/-- C10 counterexample: an environment where `DATABASE_URL` is present and
both pool bounds parse as `u32`, yet construction fails, because
`ACQUIRE_TIMEOUT_MS` is malformed. -/
theorem c10_counterexample :
    parseU32 "5" = some 5 ∧ parseU32 "2" = some 2 ∧
    DbConfig.init_for env10bad Environment.local_ =
      Except.error (ConfigError.parseError "ACQUIRE_TIMEOUT_MS" "oops") :=
  ⟨rfl, rfl, rfl⟩

/-- C10 witness: the amended theorem applied with `MIN_CONNECTIONS=10`
strictly greater than `MAX_CONNECTIONS=2`. -/
theorem c10_witness :
    DbConfig.init_for env10 Environment.local_ =
      Except.ok ⟨"postgres://h/db", 10, 2, 750, 300, false⟩ ∧ 2 < 10 :=
  ⟨c10_no_pool_bound_relation env10 Environment.local_ "postgres://h/db"
      "10" "2" 10 2 750 300 false rfl rfl rfl rfl rfl rfl rfl rfl,
   by decide⟩

set_option maxRecDepth 16384 in
/-- C7 counterexample: in the rendering of a resolved configuration the
string-typed `HOST` value appears as an unquoted assignment, not a quoted
one. -/
theorem c7_counterexample :
    Config.init envC7 8080 = Except.ok cC7 ∧
    (linesOf (Config.to_string cC7 none)).contains "HOST=127.0.0.1" = true ∧
    (linesOf (Config.to_string cC7 none)).contains "HOST=\"127.0.0.1\"" = false :=
  ⟨rfl, by decide, by decide⟩

/-- C7 (amended): the rendering of a resolved configuration is the comment
header followed by one `NAME=value` line per recognized variable, carrying
the resolved values under the variable names they were read from, with
`APP_URI`, `DATABASE_URL` and the render-time `RUST_LOG` quoted and `HOST`
unquoted. -/
theorem c7_round_trip_render (c : Config) (rust_log : Option String) :
    Config.to_string c rust_log =
      renderHeader c ++ joinLines (assignmentLines c rust_log) := by
  simp only [Config.to_string, renderHeader, joinLines, assignmentLines,
    String.append_assoc]

set_option maxRecDepth 16384 in
/-- C8 counterexample: the rendering of a resolved configuration is not the
concatenation of the spec-modelled HTTP rendering, the database rendering
and the deployment-environment line. -/
theorem c8_counterexample :
    Config.to_string cC8 none ≠ Config.render_spec cC8 := by
  decide

/-- C8 (amended): `HttpServerConfig` exposes no rendering of its own; the
`Config` rendering is a single template embedding the HTTP fields inline —
a comment header, the `APP_ENV` line, the `APP_URI`/`HOST`/`PORT` lines,
then verbatim the `DbConfig` rendering, then a `RUST_LOG` line. -/
theorem c8_render_structure (c : Config) (rl : Option String) :
    Config.to_string c rl =
      renderHeader c ++
      ("APP_ENV=" ++ c.env.toStr ++ "\n" ++
       "APP_URI=\"" ++ c.server.uri ++ "\"" ++ "\n" ++
       "HOST=" ++ c.server.addr ++ "\n" ++
       "PORT=" ++ toString c.server.port ++ "\n") ++
      DbConfig.to_string c.db ++
      ("\n" ++ "RUST_LOG=\"" ++ rl.getD "" ++ "\"") := by
  simp only [Config.to_string, renderHeader, DbConfig.to_string,
    String.append_assoc]

/-- C9 (amended): the rendering reads the `RUST_LOG` environment state at
render time: renderings of one `Config` value under `RUST_LOG` states with
different effective values (an unset variable reading as the empty string)
differ, and the output ends in a `RUST_LOG` line that corresponds to no
resolved configuration field. -/
theorem c9_render_impure (c : Config) (r1 r2 : Option String) :
    (r1.getD "" ≠ r2.getD "" →
      Config.to_string c r1 ≠ Config.to_string c r2) ∧
    Config.to_string c r1 =
      renderBase c ++ "RUST_LOG=\"" ++ r1.getD "" ++ "\"" := by
  have hbase : ∀ r : Option String, Config.to_string c r =
      (renderBase c ++ "RUST_LOG=\"") ++ (r.getD "" ++ "\"") := by
    intro r
    simp only [Config.to_string, renderBase, renderHeader, String.append_assoc]
  constructor
  · intro hne heq
    apply hne
    rw [hbase r1, hbase r2] at heq
    have hd := congrArg String.data heq
    simp only [String.data_append] at hd
    exact String.ext (List.append_cancel_right (List.append_cancel_left hd))
  · rw [hbase r1]
    simp only [String.append_assoc]

set_option maxRecDepth 16384 in
/-- C9 counterexample: the unset `RUST_LOG` state and the present-but-empty
state are different environment states yet render identically, so
different states do not always produce different strings. -/
theorem c9_counterexample :
    Config.to_string cC9 none = Config.to_string cC9 (some "") ∧
    (none : Option String) ≠ some "" :=
  ⟨rfl, by decide⟩

/-- C9 witness: the amended theorem applied to `RUST_LOG=debug` versus an
unset `RUST_LOG`. -/
theorem c9_witness :
    Config.to_string cC9 (some "debug") ≠ Config.to_string cC9 none :=
  (c9_render_impure cC9 (some "debug") none).1 (by decide)
